import Mathlib

/-!
Verification of the protocol-adaptation layer of the yarn-threads CLI
(`src/lib/threads-client.ts`, `src/lib/cookies.ts`, the doc-id cache module,
and the pagination loops in `src/commands/user.ts`).

The dynamically-typed JSON payloads handled by the response normalizer are
embedded as the inductive `Json` below.  JavaScript numbers are modelled as
integers (`Int`): none of the verified code paths depends on fractional or
non-finite values.  `Option Json` models a JavaScript value that may also be
`undefined` (`none`), which the source reaches through optional chaining and
missing-property accesses.
-/

/-- A JSON value as handled by the client.  `num` carries an `Int`
(the integer fragment of JavaScript numbers). -/
inductive Json where
  | null : Json
  | bool : Bool → Json
  | num : Int → Json
  | str : String → Json
  | arr : List Json → Json
  | obj : List (String × Json) → Json

namespace Json

/-- First binding of key `k` in an object's field list (JavaScript objects
have unique keys, so first-match lookup is exact). -/
def lookupField (fs : List (String × Json)) (k : String) : Option Json :=
  match fs with
  | [] => none
  | (k', v) :: rest => if k' == k then some v else lookupField rest k

/-- Property access `j[k]`: `undefined` (`none`) on anything that is not an
object, matching property reads on primitives and arrays in the source. -/
def getField (j : Json) (k : String) : Option Json :=
  match j with
  | .obj fs => lookupField fs k
  | _ => none

/-- Optional chaining `o?.[k]` on a possibly-`undefined` value. -/
def optField (o : Option Json) (k : String) : Option Json :=
  match o with
  | some j => getField j k
  | none => none

/-- Index access `o?.[0]`: first array element, property `"0"` of an object,
first character of a string, `undefined` otherwise. -/
def optIndexZero (o : Option Json) : Option Json :=
  match o with
  | some (.arr (x :: _)) => some x
  | some (.obj fs) => lookupField fs "0"
  | some (.str s) => if s == "" then none else some (.str (s.take 1))
  | _ => none

/-- Nullish coalescing `a ?? b`: `b` exactly when `a` is `undefined` or `null`. -/
def jsOr (a b : Option Json) : Option Json :=
  match a with
  | none => b
  | some .null => b
  | some v => some v

/-- Nullish coalescing against a present default, as in `p.user ?? {}`. -/
def jsOrVal (a : Option Json) (d : Json) : Json :=
  match a with
  | none => d
  | some .null => d
  | some v => v

/-- JavaScript truthiness of a JSON value. -/
def truthy : Json → Bool
  | .null => false
  | .bool b => b
  | .num n => !(n == 0)
  | .str s => !(s == "")
  | .arr _ => true
  | .obj _ => true

/-- Truthiness of a possibly-`undefined` value (`undefined` is falsy). -/
def otruthy (o : Option Json) : Bool :=
  match o with
  | some j => truthy j
  | none => false

/-- JavaScript `String(v)` conversion on JSON values: primitives print as in
JS, arrays join their members with commas (`null` members join as empty), and
plain objects print as `[object Object]`.  The `fuel` argument only bounds
recursion through nested arrays (structural recursion on `Nat` keeps the
function kernel-reducible); `jsToString` below supplies enough fuel for any
value, so the fuel-exhausted arm is unreachable. -/
def jsToStringFuel (fuel : Nat) (j : Json) : String :=
  match j, fuel with
  | .null, _ => "null"
  | .bool true, _ => "true"
  | .bool false, _ => "false"
  | .num n, _ => toString n
  | .str s, _ => s
  | .obj _, _ => "[object Object]"
  | .arr xs, f + 1 =>
    String.intercalate "," (xs.map fun x =>
      match x with
      | Json.null => ""
      | v => jsToStringFuel f v)
  | .arr _, 0 => ""

mutual

/-- Array-nesting depth of a value: rendering only recurses into arrays, so
this bounds the fuel `jsToString` needs. -/
def jsDepth : Json → Nat
  | .arr xs => 1 + jsDepthList xs
  | _ => 0

/-- Largest `jsDepth` among the members of a list. -/
def jsDepthList : List Json → Nat
  | [] => 0
  | x :: rest => max (jsDepth x) (jsDepthList rest)

end

/-- JavaScript `String(v)` conversion (see `jsToStringFuel`). -/
def jsToString (j : Json) : String :=
  jsToStringFuel (jsDepth j) j

/-- The check `typeof v === 'object' && v` in the source's defensive guards: arrays and
plain objects pass, every primitive and `null` fails. -/
def objectLike : Json → Bool
  | .arr _ => true
  | .obj _ => true
  | _ => false

/-- The numeric-only field filter `typeof v === 'number' ? v : undefined`. -/
def numOf (o : Option Json) : Option Int :=
  match o with
  | some (.num n) => some n
  | _ => none

end Json

/-! ## Timestamp normalization (`ThreadsClient.parseTimestamp`)

`parseTimestamp` converts a numeric value through
`new Date(value * 1000).toISOString()`.  The conversion below embeds the
ECMAScript UTC rendering: floor-based decomposition of milliseconds since the
Unix epoch into a proleptic-Gregorian civil date, printed as
`YYYY-MM-DDTHH:mm:ss.sssZ` (expanded-year form outside years 0..9999).
ECMAScript time values are clipped to the range of `TIME_VALUE_MAX_MS`
milliseconds around the epoch: outside it `new Date(ms)` is an invalid date
and `toISOString` throws a `RangeError`, which `toISOString` below models as
`none`. -/

/-- Left-pad the decimal rendering of `n` with zeros to width `w`. -/
def padNat (w : Nat) (n : Nat) : String :=
  let s := toString n
  if s.length < w then String.mk (List.replicate (w - s.length) '0') ++ s else s

/-- Civil date (year, month, day) of a day count relative to 1970-01-01,
floor-division form of the standard days-to-Gregorian algorithm. -/
def civilFromDays (z : Int) : Int × Nat × Nat :=
  let zs := z + 719468
  let era := Int.ediv zs 146097
  let doe := (zs - era * 146097).toNat
  let yoe := (doe - doe / 1460 + doe / 36524 - doe / 146096) / 365
  let doy := doe - (365 * yoe + yoe / 4 - yoe / 100)
  let mp := (5 * doy + 2) / 153
  let d := doy - (153 * mp + 2) / 5 + 1
  let m := if mp < 10 then mp + 3 else mp - 9
  (era * 400 + yoe + (if m ≤ 2 then 1 else 0), m, d)

/-- Year field of `toISOString`: four padded digits inside 0..9999, otherwise
the signed six-digit expanded form. -/
def isoYear (y : Int) : String :=
  if 0 ≤ y ∧ y ≤ 9999 then padNat 4 y.toNat
  else if y < 0 then "-" ++ padNat 6 (-y).toNat
  else "+" ++ padNat 6 y.toNat

/-- UTC rendering of an in-range time value: the string
`new Date(ms).toISOString()` produces when it does not throw. -/
def isoUtcString (ms : Int) : String :=
  let days := Int.ediv ms 86400000
  let msOfDay := (Int.emod ms 86400000).toNat
  let ymd := civilFromDays days
  isoYear ymd.1 ++ "-" ++ padNat 2 ymd.2.1 ++ "-" ++ padNat 2 ymd.2.2 ++
    "T" ++ padNat 2 (msOfDay / 3600000) ++ ":" ++
    padNat 2 (msOfDay / 60000 % 60) ++ ":" ++
    padNat 2 (msOfDay / 1000 % 60) ++ "." ++
    padNat 3 (msOfDay % 1000) ++ "Z"

/-- The ECMAScript time-value bound: `|ms|` beyond `8.64e15` milliseconds
makes a `Date` invalid. -/
def TIME_VALUE_MAX_MS : Int := 8640000000000000

/-- The method `new Date(ms).toISOString()`: within the time-value range it
renders the UTC instant; outside it the date is invalid and the method
throws a `RangeError`, modelled as `none`. -/
def toISOString (ms : Int) : Option String :=
  if -TIME_VALUE_MAX_MS ≤ ms ∧ ms ≤ TIME_VALUE_MAX_MS then some (isoUtcString ms)
  else none

/-- The method `ThreadsClient.parseTimestamp`: a number is taken as Unix
seconds and rendered through `new Date(value * 1000).toISOString()` — which
throws a `RangeError` (`none` here) when `value * 1000` leaves the
time-value range; a string passes through unchanged; anything else
(including `undefined` and `null`) yields the current instant, supplied
here as the `now` parameter. -/
def parseTimestamp (v : Option Json) (now : String) : Option String :=
  match v with
  | some (.num n) => toISOString (n * 1000)
  | some (.str s) => some s
  | _ => some now

/-- The non-throwing restriction of `parseTimestamp`, rendering the numeric
arm without the range check.  The source's `parsePostData` calls
`parseTimestamp` with no surrounding handler, so a `RangeError` from an
out-of-range numeric timestamp would propagate out of the whole parse; the
normalizer embedding below covers the non-throwing executions and renders
with this total function (`parseTimestampTotal_agrees` states the
agreement; the faithful range behaviour itself is `parseTimestamp` and
`toISOString` above). -/
def parseTimestampTotal (v : Option Json) (now : String) : String :=
  match v with
  | some (.num n) => isoUtcString (n * 1000)
  | some (.str s) => s
  | _ => now

/-! ## Canonical Post records and the response normalizer
(`ThreadsClient.parsePostData`, `parseMedia`, `parsePostList`). -/

open Json

/-- The author sub-record built inside `parsePostData`. -/
structure AuthorData where
  id : String
  username : String
  fullName : String
  profilePicUrl : Option String
  isVerified : Bool
deriving Repr

/-- A media item: `type` is `'video'` exactly when `media_type === 2`. -/
inductive MediaKind where
  | image : MediaKind
  | video : MediaKind
deriving DecidableEq, Repr

/-- One parsed media element.  `width` and `height` are copied from the
payload without a runtime type check in the source, so they stay raw
JSON values here. -/
structure PostMedia where
  kind : MediaKind
  url : String
  width : Option Json
  height : Option Json
  videoUrl : Option String

/-- The canonical Post record produced by `parsePostData`.  `raw` is the
`_raw` passthrough reference to the unparsed payload. -/
structure PostData where
  id : String
  code : String
  text : String
  author : AuthorData
  createdAt : String
  likeCount : Option Int
  replyCount : Option Int
  repostCount : Option Int
  media : Option (List PostMedia)
  raw : Json

/-- String conversion `String(v)` of `candidates[0].url ?? ''` and friends. -/
def jsStringOr (o : Option Json) (d : Json) : String :=
  jsToString (jsOrVal o d)

/-- The ternary `v ? String(v) : undefined` used for optional URL fields. -/
def truthyString (o : Option Json) : Option String :=
  match o with
  | some v => if truthy v then some (jsToString v) else none
  | none => none

/-- Strict comparison `m.media_type === 2` choosing video over image. -/
def mediaKindOf (o : Option Json) : MediaKind :=
  match o with
  | some (.num n) => if n == 2 then MediaKind.video else MediaKind.image
  | _ => MediaKind.image

/-- One carousel element (also the single-item branch applied to the post
itself): emitted only when `candidates?.[0]` is truthy. -/
def mediaItem (m : Json) : Option PostMedia :=
  let candidates := optField (getField m "image_versions2") "candidates"
  let cand0 := optIndexZero candidates
  if otruthy cand0 then
    some { kind := mediaKindOf (getField m "media_type")
           url := jsStringOr (optField cand0 "url") (Json.str "")
           width := optField cand0 "width"
           height := optField cand0 "height"
           videoUrl := truthyString (optField (optIndexZero (getField m "video_versions")) "url") }
  else none

/-- The carousel `for` loop: elements without usable image candidates are
skipped, the rest are kept in order. -/
def carouselLoop : List Json → List PostMedia
  | [] => []
  | m :: rest =>
    match mediaItem m with
    | some x => x :: carouselLoop rest
    | none => carouselLoop rest

/-- The method `ThreadsClient.parseMedia`: a `carousel_media` array is mapped
element-wise (empty result becomes `undefined`); otherwise the single-item
logic runs on the post object itself. -/
def parseMedia (p : Json) : Option (List PostMedia) :=
  match getField p "carousel_media" with
  | some (.arr items) =>
    let media := carouselLoop items
    if media.length > 0 then some media else none
  | _ =>
    match mediaItem p with
    | some x => some [x]
    | none => none

/-- The record construction of `parsePostData` on the selected post-shaped
object `p`, with `raw` the original payload and `now` the current instant. -/
def buildPost (p : Json) (raw : Json) (now : String) : PostData :=
  let user := jsOrVal (jsOr (getField p "user") (getField p "owner")) (Json.obj [])
  let caption := jsOrVal (getField p "caption") (Json.obj [])
  let tpai := getField p "text_post_app_info"
  { id := jsStringOr (jsOr (getField p "pk") (getField p "id")) (Json.str "")
    code := jsStringOr (jsOr (getField p "code") (getField p "shortcode")) (Json.str "")
    text := jsStringOr (jsOr (getField caption "text")
      (jsOr (getField p "text") (getField p "caption"))) (Json.str "")
    author :=
      { id := jsStringOr (jsOr (getField user "pk") (getField user "id")) (Json.str "")
        username := jsStringOr (getField user "username") (Json.str "")
        fullName := jsStringOr (jsOr (getField user "full_name") (getField user "fullName")) (Json.str "")
        profilePicUrl := truthyString (getField user "profile_pic_url")
        isVerified :=
          match getField user "is_verified" with
          | some (.bool true) => true
          | _ => false }
    createdAt := parseTimestampTotal
      (jsOr (getField p "taken_at") (jsOr (getField p "timestamp") (getField p "createdAt"))) now
    likeCount :=
      match numOf (getField p "like_count") with
      | some n => some n
      | none => numOf (getField p "likeCount")
    replyCount :=
      match numOf (optField tpai "direct_reply_count") with
      | some n => some n
      | none => numOf (getField p "replyCount")
    repostCount :=
      match numOf (optField tpai "repost_count") with
      | some n => some n
      | none => numOf (getField p "repostCount")
    media := parseMedia p
    raw := raw }

/-- The method `ThreadsClient.parsePostData`: pick the post-shaped object through the
precedence chain `post ?? thread ?? data.post ??
containing_thread.thread_items[0].post ?? payload itself`, then build the
canonical record; a primitive payload or selection yields `null`. -/
def parsePostData (data : Json) (now : String) : Option PostData :=
  if objectLike data then
    let dData := getField data "data"
    let threadItems := optField (getField data "containing_thread") "thread_items"
    let postData := jsOrVal
      (jsOr (getField data "post")
        (jsOr (getField data "thread")
          (jsOr (optField dData "post")
            (optField (optIndexZero threadItems) "post"))))
      data
    if objectLike postData then some (buildPost postData data now) else none
  else none

/-- The element unwrapping `i.node ?? i.post ?? i.thread ?? i` of the list
parser. -/
def unwrapListItem (i : Json) : Json :=
  jsOrVal (jsOr (getField i "node") (jsOr (getField i "post") (getField i "thread"))) i

/-- The accumulating `for` loop of `parsePostList`: parsed elements are
pushed in order, failed elements are skipped. -/
def postsLoop (now : String) : List Json → List PostData → List PostData
  | [], acc => acc
  | i :: rest, acc =>
    match parsePostData (unwrapListItem i) now with
    | some post => postsLoop now rest (acc ++ [post])
    | none => postsLoop now rest acc

/-- Container-array selection of `parsePostList`:
`threads ?? items ?? edges ?? thread_items ?? data.threads ?? []`, with the
subsequent `Array.isArray` guard (a non-array selection yields no items). -/
def postListItems (d : Json) : List Json :=
  match jsOrVal
    (jsOr (getField d "threads")
      (jsOr (getField d "items")
        (jsOr (getField d "edges")
          (jsOr (getField d "thread_items")
            (optField (getField d "data") "threads")))))
    (Json.arr []) with
  | .arr xs => xs
  | _ => []

/-- Cursor extraction of `parsePostList`: a truthy `page_info.end_cursor`
wins, else a truthy top-level `next_cursor`, else no cursor. -/
def extractCursor (d : Json) : Option String :=
  let endCursor := optField (getField d "page_info") "end_cursor"
  if otruthy endCursor then some (jsStringOr endCursor (Json.str ""))
  else
    let nextCursor := getField d "next_cursor"
    if otruthy nextCursor then some (jsStringOr nextCursor (Json.str ""))
    else none

/-- A parsed page: the posts list plus the optional pagination cursor. -/
structure PostListResult where
  posts : List PostData
  nextCursor : Option String

/-- The method `ThreadsClient.parsePostList`: a non-object payload yields the empty
page; otherwise the items loop and the cursor extraction run on it. -/
def parsePostList (data : Json) (now : String) : PostListResult :=
  if objectLike data then
    { posts := postsLoop now (postListItems data) []
      nextCursor := extractCursor data }
  else
    { posts := [], nextCursor := none }

/-! ## Transport classification (`ThreadsClient.graphqlRequest`)

`graphqlRequest` classifies a received HTTP response: a non-2xx status maps
to the `HTTP <status>: <body prefix>` failure; otherwise `response.json()`
runs (its `SyntaxError` is caught and surfaced as a generic failure whose
text is engine-defined, kept abstract here as a distinct constructor); a
parsed body with a non-empty top-level `errors` array maps to the joined
messages; otherwise the call succeeds with the body's `data` member.
`jsonParse` below embeds `JSON.parse` on the integer fragment of JSON
(fractional/exponent number literals are unrepresentable in the `Json`
model and rejected); `fuel` bounds the recursion and `jsonParse` supplies
more than the input's length, which any parse can consume. -/

/-- JSON insignificant whitespace. -/
def isWsChar : Char → Bool
  | ' ' => true
  | '\t' => true
  | '\n' => true
  | '\r' => true
  | _ => false

/-- Drop leading JSON whitespace. -/
def skipWs : List Char → List Char
  | [] => []
  | c :: cs => if isWsChar c then skipWs cs else c :: cs

/-- Match an exact literal continuation such as `rue` of `true`. -/
def expectChars : List Char → List Char → Option (List Char)
  | [], cs => some cs
  | l :: ls, c :: cs => if c == l then expectChars ls cs else none
  | _ :: _, [] => none

/-- Value of a hexadecimal digit. -/
def hexVal (c : Char) : Option Nat :=
  if c.isDigit then some (c.toNat - 48)
  else if 'a' ≤ c ∧ c ≤ 'f' then some (c.toNat - 87)
  else if 'A' ≤ c ∧ c ≤ 'F' then some (c.toNat - 55)
  else none

/-- Single-character JSON string escapes. -/
def escChar : Char → Option Char
  | 'n' => some '\n'
  | 't' => some '\t'
  | 'r' => some '\r'
  | 'b' => some (Char.ofNat 8)
  | 'f' => some (Char.ofNat 12)
  | '/' => some '/'
  | '"' => some '"'
  | '\\' => some '\\'
  | _ => none

/-- Body of a JSON string literal after the opening quote: raw control
characters are rejected, escapes are decoded, the closing quote ends it. -/
def pString : List Char → String → Option (String × List Char)
  | [], _ => none
  | c :: rest, acc =>
    if c == '"' then some (acc, rest)
    else if c == '\\' then
      match rest with
      | [] => none
      | e :: rest2 =>
        if e == 'u' then
          match rest2 with
          | a :: b :: c2 :: d :: rest3 =>
            match hexVal a, hexVal b, hexVal c2, hexVal d with
            | some ha, some hb, some hc, some hd =>
              pString rest3 (acc.push (Char.ofNat (((ha * 16 + hb) * 16 + hc) * 16 + hd)))
            | _, _, _, _ => none
          | _ => none
        else
          match escChar e with
          | some ch => pString rest2 (acc.push ch)
          | none => none
    else if c.toNat < 32 then none
    else pString rest (acc.push c)

/-- Longest leading digit run, as a number and its digit count. -/
def pDigits : List Char → Nat → Nat → Nat × Nat × List Char
  | c :: rest, acc, count =>
    if c.isDigit then pDigits rest (acc * 10 + (c.toNat - 48)) (count + 1)
    else (acc, count, c :: rest)
  | [], acc, count => (acc, count, [])

/-- A JSON integer literal at the head of the input: at least one digit, no
redundant leading zero, and no fraction/exponent continuation (fractional
values fall outside the `Json` model and are rejected). -/
def pIntLit (neg : Bool) (cs : List Char) : Option (Json × List Char) :=
  match pDigits cs 0 0 with
  | (n, count, rest) =>
    if count == 0 then none
    else if count > 1 ∧ cs.headD '0' == '0' then none
    else
      match rest with
      | c :: _ =>
        if c == '.' ∨ c == 'e' ∨ c == 'E' then none
        else some (Json.num (if neg then -(n : Int) else (n : Int)), rest)
      | [] => some (Json.num (if neg then -(n : Int) else (n : Int)), [])

mutual

/-- One JSON value at the head of the input (after whitespace). -/
def pVal : Nat → List Char → Option (Json × List Char)
  | 0, _ => none
  | fuel + 1, cs =>
    match skipWs cs with
    | [] => none
    | c :: rest =>
      if c == '\x7b' then
        match skipWs rest with
        | '\x7d' :: rest2 => some (Json.obj [], rest2)
        | rest2 => pFields fuel rest2 []
      else if c == '[' then
        match skipWs rest with
        | ']' :: rest2 => some (Json.arr [], rest2)
        | rest2 => pItems fuel rest2 []
      else if c == '"' then
        match pString rest "" with
        | some (s, rest2) => some (Json.str s, rest2)
        | none => none
      else if c == 't' then
        (expectChars ['r', 'u', 'e'] rest).map (fun r => (Json.bool true, r))
      else if c == 'f' then
        (expectChars ['a', 'l', 's', 'e'] rest).map (fun r => (Json.bool false, r))
      else if c == 'n' then
        (expectChars ['u', 'l', 'l'] rest).map (fun r => (Json.null, r))
      else if c == '-' then pIntLit true rest
      else if c.isDigit then pIntLit false (c :: rest)
      else none

/-- Comma-separated array members up to the closing bracket. -/
def pItems : Nat → List Char → List Json → Option (Json × List Char)
  | 0, _, _ => none
  | fuel + 1, cs, acc =>
    match pVal fuel cs with
    | none => none
    | some (v, rest) =>
      match skipWs rest with
      | ',' :: rest2 => pItems fuel rest2 (acc ++ [v])
      | ']' :: rest2 => some (Json.arr (acc ++ [v]), rest2)
      | _ => none

/-- Comma-separated `"key": value` members up to the closing brace. -/
def pFields : Nat → List Char → List (String × Json) → Option (Json × List Char)
  | 0, _, _ => none
  | fuel + 1, cs, acc =>
    match skipWs cs with
    | '"' :: rest =>
      match pString rest "" with
      | none => none
      | some (k, rest2) =>
        match skipWs rest2 with
        | ':' :: rest3 =>
          match pVal fuel rest3 with
          | none => none
          | some (v, rest4) =>
            match skipWs rest4 with
            | ',' :: rest5 => pFields fuel rest5 (acc ++ [(k, v)])
            | '\x7d' :: rest5 => some (Json.obj (acc ++ [(k, v)]), rest5)
            | _ => none
        | _ => none
    | _ => none

end

/-- Whole-document `JSON.parse`: one value surrounded only by
whitespace. -/
def jsonParse (s : String) : Option Json :=
  match pVal (s.length + 1) s.data with
  | some (j, rest) =>
    match skipWs rest with
    | [] => some j
    | _ :: _ => none
  | none => none

/-- A received HTTP response, as seen by the classification step: the `ok`
flag (2xx status), the numeric status, and the body text. -/
structure HttpResponse where
  ok : Bool
  status : Nat
  body : String

/-- Classification outcome of `graphqlRequest` on a received response.  The
source encodes every failure as `{ success: false, error: string }`; the
constructors here keep the distinct error strings it builds apart, with the
two exception-path texts (`SyntaxError` from `response.json()`, `TypeError`
from `.map` on a non-array) abstract because their wording is
engine-defined. -/
inductive GraphqlOutcome where
  | success (data : Option Json)
  | httpError (status : Nat) (bodyHead : String)
  | apiError (message : String)
  | jsonError
  | mapTypeError

/-- The join `errors.map((e) => e.message ?? 'Unknown error').join('; ')`. -/
def joinMessages (es : List Json) : String :=
  String.intercalate "; " (es.map fun e =>
    jsToString (jsOrVal (getField e "message") (Json.str "Unknown error")))

/-- JavaScript `.length` as read by the `errors.length > 0` guard: character
count of a string, member count of an array, a numeric `length` property of
an object, `undefined` otherwise (a non-numeric object `length` then fails
the `> 0` comparison). -/
def jsLength (j : Json) : Option Int :=
  match j with
  | .arr xs => some xs.length
  | .str s => some s.length
  | .obj fs =>
    match lookupField fs "length" with
    | some (.num n) => some n
    | _ => none
  | _ => none

/-- Response classification of `graphqlRequest`: non-2xx maps to the
`HTTP <status>: <text.slice(0, 200)>` failure; a body `response.json()`
cannot parse surfaces the caught `SyntaxError`; a parsed body with a truthy
`errors` of positive length either joins the messages (array) or raises at
`.map` (anything else, also caught); otherwise the call succeeds with the
body's `data` member. -/
def graphqlClassify (resp : HttpResponse) : GraphqlOutcome :=
  if resp.ok then
    match jsonParse resp.body with
    | none => .jsonError
    | some data =>
      match getField data "errors" with
      | some e =>
        if truthy e && (match jsLength e with | some n => decide (0 < n) | none => false) then
          match e with
          | .arr es => .apiError (joinMessages es)
          | _ => .mapTypeError
        else .success (getField data "data")
      | none => .success (getField data "data")
  else .httpError resp.status (resp.body.take 200)

/-- The claim's premise on a body: it begins with `<!DOCTYPE` or `<html`. -/
def beginsWithHtml (s : String) : Bool :=
  match s.data with
  | '<' :: '!' :: 'D' :: 'O' :: 'C' :: 'T' :: 'Y' :: 'P' :: 'E' :: _ => true
  | '<' :: 'h' :: 't' :: 'm' :: 'l' :: _ => true
  | _ => false

/-! ## Credential resolution (`src/lib/cookies.ts`)

`resolveCredentials` merges CLI values, environment variables and browser
cookie extraction.  The environment is a lookup function, and the browser
capability is an oracle from a browser back-end to an extraction result
(absorbing the profile and timeout arguments the source forwards to it).
JavaScript truthiness on the `string | null` cookie fields is `truthyStr`. -/

/-- Truthiness of a `string | null | undefined` value. -/
def truthyStr : Option String → Bool
  | some s => !(s == "")
  | none => false

/-- The cookie record threaded through resolution. -/
structure ThreadsCookies where
  sessionId : Option String
  csrfToken : Option String
  userId : Option String
  cookieHeader : Option String
  source : Option String
deriving DecidableEq, Repr

/-- The all-null record `buildEmpty()`. -/
def buildEmpty : ThreadsCookies :=
  { sessionId := none, csrfToken := none, userId := none,
    cookieHeader := none, source := none }

/-- White space stripped by `String.prototype.trim` (the ASCII range plus
no-break space; the rarer Unicode space code points do not occur in the
verified inputs). -/
def isJsWsChar : Char → Bool
  | ' ' => true
  | '\t' => true
  | '\n' => true
  | '\r' => true
  | '\x0b' => true
  | '\x0c' => true
  | '\xa0' => true
  | _ => false

/-- JavaScript `s.trim()`: strip leading and trailing white space. -/
def jsTrim (s : String) : String :=
  String.mk (((s.data.dropWhile isJsWsChar).reverse.dropWhile isJsWsChar).reverse)

/-- The helper `normalizeValue`: non-strings map to `null`; strings are trimmed and an
empty trim result maps to `null` (environment values are `string |
undefined`, so the input is an optional string here). -/
def normalizeValue : Option String → Option String
  | none => none
  | some s =>
    let trimmed := jsTrim s
    if trimmed.length > 0 then some trimmed else none

/-- The builder `buildCookieHeader`: the `ds_user_id` pair is appended only for a truthy
`userId`. -/
def buildCookieHeader (sessionId csrfToken : String) (userId : Option String) : String :=
  let base := "sessionid=" ++ sessionId ++ "; csrftoken=" ++ csrfToken
  match userId with
  | some uid => if uid == "" then base else base ++ "; ds_user_id=" ++ uid
  | none => base

/-- The three assignable cookie fields of `readEnvCookie`. -/
inductive CookieField where
  | sessionId : CookieField
  | csrfToken : CookieField
  | userId : CookieField
deriving DecidableEq, Repr

/-- Read one cookie field. -/
def getCookieField (c : ThreadsCookies) : CookieField → Option String
  | .sessionId => c.sessionId
  | .csrfToken => c.csrfToken
  | .userId => c.userId

/-- Assign one cookie field. -/
def setCookieField (c : ThreadsCookies) (f : CookieField) (v : String) : ThreadsCookies :=
  match f with
  | .sessionId => { c with sessionId := some v }
  | .csrfToken => { c with csrfToken := some v }
  | .userId => { c with userId := some v }

/-- First alias whose normalized environment value is present, with the
value. -/
def firstEnvMatch (env : String → Option String) : List String → Option (String × String)
  | [] => none
  | k :: rest =>
    match normalizeValue (env k) with
    | some v => some (k, v)
    | none => firstEnvMatch env rest

/-- The helper `readEnvCookie`: a field already truthy is left alone; otherwise the
first alias with a normalized value fills it, also setting `source` to
`env <key>` when no source label exists yet. -/
def readEnvCookie (env : String → Option String) (c : ThreadsCookies)
    (keys : List String) (field : CookieField) : ThreadsCookies :=
  if truthyStr (getCookieField c field) then c
  else
    match firstEnvMatch env keys with
    | some (k, v) =>
      let c' := setCookieField c field v
      if truthyStr c'.source then c' else { c' with source := some ("env " ++ k) }
    | none => c

/-- A browser back-end tried by the extraction stage. -/
inductive CookieSource where
  | safari : CookieSource
  | chrome : CookieSource
  | firefox : CookieSource
deriving DecidableEq, Repr

/-- The result of one `readThreadsCookiesFromBrowser` call. -/
structure CookieExtraction where
  cookies : ThreadsCookies
  warnings : List String
deriving DecidableEq, Repr

/-- The helper `resolveSources`: the caller's explicit back-end selection (the source's
single-value form is a one-element list here), defaulting to Safari, Chrome
then Firefox. -/
def resolveSources (o : Option (List CookieSource)) : List CookieSource :=
  match o with
  | some l => l
  | none => [.safari, .chrome, .firefox]

/-- The inputs of `resolveCredentials` that the claims range over: CLI values
and the back-end selection.  Profile selectors and the cookie timeout only
parametrize the browser capability and are absorbed into the oracle. -/
structure ResolveOpts where
  sessionId : Option String
  csrfToken : Option String
  userId : Option String
  cookieSource : Option (List CookieSource)
deriving DecidableEq, Repr

/-- The update `if (!cookies.source) cookies.source = 'CLI argument'`. -/
def orCliLabel (o : Option String) : Option String :=
  if truthyStr o then o else some "CLI argument"

/-- The two trailing `Missing ...` warnings of `resolveCredentials`. -/
def missingWarnings (c : ThreadsCookies) : List String :=
  (if truthyStr c.sessionId then [] else
    ["Missing sessionid - provide via --session-id, THREADS_SESSION_ID env var, or login to threads.net in Safari/Chrome/Firefox"]) ++
  (if truthyStr c.csrfToken then [] else
    ["Missing csrftoken - provide via --csrf-token, THREADS_CSRF_TOKEN env var, or login to threads.net in Safari/Chrome/Firefox"])

/-- The header `buildCookieHeader(cookies.sessionId, cookies.csrfToken,
cookies.userId ?? undefined)` applied to a record whose required fields are present. -/
def headerOf (c : ThreadsCookies) : String :=
  buildCookieHeader (c.sessionId.getD "") (c.csrfToken.getD "") c.userId

/-- The tail of `resolveCredentials` after the browser loop: helpful
warnings, then a cookie header when both required fields exist. -/
def finalizeCredentials (c : ThreadsCookies) (warnings : List String) :
    ThreadsCookies × List String :=
  let warnings := warnings ++ missingWarnings c
  if truthyStr c.sessionId && truthyStr c.csrfToken then
    ({ c with cookieHeader := some (headerOf c) }, warnings)
  else (c, warnings)

/-- The browser-extraction `for` loop: each back-end's warnings accumulate;
the first extraction with both required cookies returns immediately. -/
def browserLoop (browser : CookieSource → CookieExtraction) (c : ThreadsCookies) :
    List CookieSource → List String → ThreadsCookies × List String
  | [], warnings => finalizeCredentials c warnings
  | s :: rest, warnings =>
    let res := browser s
    let warnings' := warnings ++ res.warnings
    if truthyStr res.cookies.sessionId && truthyStr res.cookies.csrfToken then
      (res.cookies, warnings')
    else browserLoop browser c rest warnings'

/-- The resolver `resolveCredentials`: CLI values fill fields first (a truthy CLI
`sessionId` sets the source label unconditionally, the other two only when
no label exists); environment aliases then fill still-missing fields; if
both required cookies exist the call returns early with the built header and
no warnings; otherwise browser back-ends are tried in order. -/
def resolveCredentials (opts : ResolveOpts) (env : String → Option String)
    (browser : CookieSource → CookieExtraction) : ThreadsCookies × List String :=
  let c := buildEmpty
  let c := if truthyStr opts.sessionId then
      { c with sessionId := opts.sessionId, source := some "CLI argument" } else c
  let c := if truthyStr opts.csrfToken then
      { c with csrfToken := opts.csrfToken, source := orCliLabel c.source } else c
  let c := if truthyStr opts.userId then
      { c with userId := opts.userId, source := orCliLabel c.source } else c
  let c := readEnvCookie env c ["THREADS_SESSION_ID", "INSTAGRAM_SESSION_ID", "SESSION_ID"] .sessionId
  let c := readEnvCookie env c ["THREADS_CSRF_TOKEN", "INSTAGRAM_CSRF_TOKEN", "CSRF_TOKEN"] .csrfToken
  let c := readEnvCookie env c ["THREADS_USER_ID", "INSTAGRAM_USER_ID", "DS_USER_ID"] .userId
  if truthyStr c.sessionId && truthyStr c.csrfToken then
    ({ c with cookieHeader := some (headerOf c) }, [])
  else browserLoop browser c (resolveSources opts.cookieSource) []

/-! ## The `ThreadsClient` constructor -/

/-- The client fields the constructor stores. -/
structure ClientState where
  csrfToken : String
  userId : Option String
  cookieHeader : String
  timeoutMs : Option Int
deriving DecidableEq, Repr

/-- The constructor `new ThreadsClient(options)`: throws exactly when `sessionId` or
`csrfToken` is falsy (`null` or the empty string); otherwise it stores the
CSRF token, the user id and `cookieHeader ?? ''`. -/
def threadsClientNew (cookies : ThreadsCookies) (timeoutMs : Option Int) :
    Except String ClientState :=
  if truthyStr cookies.sessionId && truthyStr cookies.csrfToken then
    Except.ok
      { csrfToken := cookies.csrfToken.getD ""
        userId := cookies.userId
        cookieHeader := cookies.cookieHeader.getD ""
        timeoutMs := timeoutMs }
  else Except.error "Both sessionId and csrfToken cookies are required"

/-! ## The doc-id cache (`getDocIds`, `loadCachedDocIds`)

The module's I/O is made explicit: the on-disk cache file is an optional
already-parsed record (`none` for a missing, unreadable or non-JSON file),
`now` is `Date.now()`, and the web-discovery outcome is a parameter (the
extraction never throws and yields a partial map plus an optional LSD
token).  `JSON.parse` casts the cache file without validating its shape, so
the cached doc-id map is a `PartialDocIds` — each of the 11 keys may be
missing.  Persisting the refreshed record is a side effect with no influence
on the returned value and is not modelled. -/

/-- The 11 logical query names, each bound to a doc-id string. -/
structure DocIds where
  userByUsername : String
  userData : String
  threadDetail : String
  threadReplies : String
  homeTimeline : String
  userThreads : String
  likedThreads : String
  savedThreads : String
  followers : String
  following : String
  searchThreads : String
deriving DecidableEq, Repr

/-- A doc-id map as it may come back from the unvalidated cache cast or from
partial discovery: any key may be absent. -/
structure PartialDocIds where
  userByUsername : Option String := none
  userData : Option String := none
  threadDetail : Option String := none
  threadReplies : Option String := none
  homeTimeline : Option String := none
  userThreads : Option String := none
  likedThreads : Option String := none
  savedThreads : Option String := none
  followers : Option String := none
  following : Option String := none
  searchThreads : Option String := none
deriving DecidableEq, Repr

/-- The fallback table `FALLBACK_DOC_IDS`. -/
def FALLBACK_DOC_IDS : DocIds :=
  { userByUsername := "23996318473300828"
    userData := "9360915773983802"
    threadDetail := "6529829603744567"
    threadReplies := "6684830921547925"
    homeTimeline := "7846151975432989"
    userThreads := "6232751443445612"
    likedThreads := "9360047727362754"
    savedThreads := "6354918684616234"
    followers := "7707543692631249"
    following := "7050524464970894"
    searchThreads := "6529829603744567" }

/-- The freshness window `CACHE_MAX_AGE_MS = 24 * 60 * 60 * 1000`. -/
def CACHE_MAX_AGE_MS : Int := 24 * 60 * 60 * 1000

/-- The on-disk cache record (`CachedDocIds` in the source, after the
unvalidated `JSON.parse` cast). -/
structure CachedDocIds where
  docIds : PartialDocIds
  timestamp : Int
  lsdToken : Option String
deriving DecidableEq, Repr

/-- The loader `loadCachedDocIds`: a readable record is returned only while
`Date.now() - timestamp < CACHE_MAX_AGE_MS`; everything else (missing file,
parse failure, stale record) yields `null`. -/
def loadCachedDocIds (file : Option CachedDocIds) (now : Int) : Option CachedDocIds :=
  match file with
  | none => none
  | some cached => if now - cached.timestamp < CACHE_MAX_AGE_MS then some cached else none

/-- A web-discovery outcome: the partial map of extracted ids plus the
optional LSD token. -/
structure Extraction where
  docIds : PartialDocIds
  lsdToken : Option String
deriving DecidableEq, Repr

/-- One key of the merge loop `if (value) merged[key] = value`: a truthy
extracted value overrides the fallback. -/
def mergeField (extracted : Option String) (fallback : String) : String :=
  match extracted with
  | some v => if v == "" then fallback else v
  | none => fallback

/-- The merge `merged = { ...FALLBACK_DOC_IDS }` overlaid with the truthy
extracted entries. -/
def mergeDocIds (e : PartialDocIds) : DocIds :=
  { userByUsername := mergeField e.userByUsername FALLBACK_DOC_IDS.userByUsername
    userData := mergeField e.userData FALLBACK_DOC_IDS.userData
    threadDetail := mergeField e.threadDetail FALLBACK_DOC_IDS.threadDetail
    threadReplies := mergeField e.threadReplies FALLBACK_DOC_IDS.threadReplies
    homeTimeline := mergeField e.homeTimeline FALLBACK_DOC_IDS.homeTimeline
    userThreads := mergeField e.userThreads FALLBACK_DOC_IDS.userThreads
    likedThreads := mergeField e.likedThreads FALLBACK_DOC_IDS.likedThreads
    savedThreads := mergeField e.savedThreads FALLBACK_DOC_IDS.savedThreads
    followers := mergeField e.followers FALLBACK_DOC_IDS.followers
    following := mergeField e.following FALLBACK_DOC_IDS.following
    searchThreads := mergeField e.searchThreads FALLBACK_DOC_IDS.searchThreads }

/-- View a complete map as the runtime shape a caller receives. -/
def DocIds.toPartial (d : DocIds) : PartialDocIds :=
  { userByUsername := some d.userByUsername
    userData := some d.userData
    threadDetail := some d.threadDetail
    threadReplies := some d.threadReplies
    homeTimeline := some d.homeTimeline
    userThreads := some d.userThreads
    likedThreads := some d.likedThreads
    savedThreads := some d.savedThreads
    followers := some d.followers
    following := some d.following
    searchThreads := some d.searchThreads }

/-- What `getDocIds` returns: the doc-id map in its runtime (possibly
partial) shape plus the optional LSD token. -/
structure DocIdsResult where
  docIds : PartialDocIds
  lsdToken : Option String
deriving DecidableEq, Repr

/-- The cache entry point `getDocIds`: without `forceRefresh` a fresh cached record is returned
unchanged; otherwise the discovery outcome is merged over the fallback table
and returned. -/
def getDocIds (forceRefresh : Bool) (file : Option CachedDocIds) (now : Int)
    (extraction : Extraction) : DocIdsResult :=
  match (if forceRefresh then none else loadCachedDocIds file now) with
  | some cached => { docIds := cached.docIds, lsdToken := cached.lsdToken }
  | none => { docIds := (mergeDocIds extraction.docIds).toPartial, lsdToken := extraction.lsdToken }

/-- Every one of the 11 keys is bound to a non-empty string. -/
def PartialDocIds.fullyPopulated (d : PartialDocIds) : Bool :=
  truthyStr d.userByUsername && truthyStr d.userData && truthyStr d.threadDetail &&
  truthyStr d.threadReplies && truthyStr d.homeTimeline && truthyStr d.userThreads &&
  truthyStr d.likedThreads && truthyStr d.savedThreads && truthyStr d.followers &&
  truthyStr d.following && truthyStr d.searchThreads

/-! ## The pagination walk of the `user-posts` command
(`src/commands/user.ts`, also used verbatim by `replies`, `following`,
`followers` and `search`)

One page fetch is a call of the oracle `fetch` with the page index and the
cursor from the previous page (`none` initially).  The loop always issues
the first fetch; on success it accumulates the items and continues while the
returned cursor is truthy and the page count stays below `maxPages`; on
failure it prints the error and exits the process when nothing was
accumulated yet, else it breaks and the accumulated items are output.
`fuel` only bounds the recursion: successful iterations stop at `maxPages`
pages, so `walkPages` starts it at `maxPages` and the fuel-exhausted arm is
unreachable. -/

/-- One page-fetch outcome (`GetPostsResult` with `success` split). -/
inductive FetchOutcome (α : Type) where
  | ok (items : List α) (nextCursor : Option String) : FetchOutcome α
  | err (error : String) : FetchOutcome α

/-- How a walk ends: the accumulated items, the error printed on a failed
page (if any), and whether the command exited fatally (`process.exit(1)`). -/
structure WalkResult (α : Type) where
  items : List α
  errorMsg : Option String
  fatal : Bool
deriving DecidableEq, Repr

/-- The `while (true)` body, `k` pages fetched so far. -/
def walkGo {α : Type} (fetch : Nat → Option String → FetchOutcome α) (maxPages : Nat) :
    Nat → Nat → List α → Option String → WalkResult α
  | fuel, k, acc, cursor =>
    match fetch k cursor with
    | .err e => { items := acc, errorMsg := some e, fatal := acc.isEmpty }
    | .ok ps next =>
      let acc' := acc ++ ps
      if truthyStr next && decide (k + 1 < maxPages) then
        match fuel with
        | f + 1 => walkGo fetch maxPages f (k + 1) acc' next
        | 0 => { items := acc', errorMsg := none, fatal := false }
      else { items := acc', errorMsg := none, fatal := false }

/-- The whole pagination walk with initial cursor `c0`. -/
def walkPages {α : Type} (fetch : Nat → Option String → FetchOutcome α)
    (maxPages : Nat) (c0 : Option String) : WalkResult α :=
  walkGo fetch maxPages maxPages 0 [] c0

/-! ## Auxiliary values used by the claim statements -/

/-- Forget the `_raw` passthrough reference when comparing parsed posts: it
is the untransformed source payload, never consulted by normalization. -/
def eraseRaw (p : PostData) : PostData := { p with raw := Json.null }

/-- The HTML login-page body used by the concrete transport responses. -/
def htmlLoginBody : String := "<html><body>Log in</body></html>"

/-- The resolved cookie record of the CLI-both fast path before the header
is attached: both required values come from the CLI and the source label is
`CLI argument`. -/
def cliBothCookies (s c : String) (uid : Option String) : ThreadsCookies :=
  { sessionId := some s
    csrfToken := some c
    userId := uid
    cookieHeader := none
    source := some "CLI argument" }

/-- The user id the CLI-both fast path ends up with: the CLI value when
truthy, otherwise the first normalized environment alias — the environment
is still consulted for this one field. -/
def cliBothUserId (ou : Option String) (env : String → Option String) : Option String :=
  if truthyStr ou then ou
  else (firstEnvMatch env ["THREADS_USER_ID", "INSTAGRAM_USER_ID", "DS_USER_ID"]).map Prod.snd

/-- Options of the concrete credential-resolution runs: both required
credentials on the command line, no CLI user id. -/
def cliOnlyOpts : ResolveOpts :=
  { sessionId := some "sess", csrfToken := some "csrf", userId := none, cookieSource := none }

/-- An environment carrying only `THREADS_USER_ID`. -/
def envWithUserId : String → Option String :=
  fun k => if k == "THREADS_USER_ID" then some "42" else none

/-- An empty environment. -/
def envEmpty : String → Option String := fun _ => none

/-- A browser capability that finds nothing. -/
def browserNothing : CookieSource → CookieExtraction :=
  fun _ => { cookies := buildEmpty, warnings := [] }

/-! ## Theorems -/

/-- Claim C3: wrapping one and the same post object as `post`, `thread`,
`data.post`, or `containing_thread.thread_items[0].post` and normalizing
through `parsePostData` yields the same canonical Post — identical id, code,
text, author, timestamp, counts and media (only the `_raw` payload reference
differs, by construction). -/
theorem claim3_post_root_shapes (p : Json) (now : String) :
    Option.map eraseRaw (parsePostData (Json.obj [("post", p)]) now) =
      Option.map eraseRaw (parsePostData (Json.obj [("thread", p)]) now) ∧
    Option.map eraseRaw (parsePostData (Json.obj [("post", p)]) now) =
      Option.map eraseRaw (parsePostData (Json.obj [("data", Json.obj [("post", p)])]) now) ∧
    Option.map eraseRaw (parsePostData (Json.obj [("post", p)]) now) =
      Option.map eraseRaw (parsePostData
        (Json.obj [("containing_thread", Json.obj [("thread_items",
          Json.arr [Json.obj [("post", p)]])])]) now) := by
  refine ⟨?_, ?_, ?_⟩ <;> cases p <;> rfl

/-- Accumulating form of the `parsePostList` items loop as a `filterMap`. -/
theorem postsLoop_eq_filterMap (now : String) (items : List Json) (acc : List PostData) :
    postsLoop now items acc =
      acc ++ items.filterMap (fun i => parsePostData (unwrapListItem i) now) := by
  induction items generalizing acc with
  | nil => simp [postsLoop]
  | cons i rest ih =>
    simp only [postsLoop, List.filterMap_cons]
    cases parsePostData (unwrapListItem i) now with
    | none => simpa using ih acc
    | some post => simp [ih]

/-- Claim C4, counterexample: a list element with no `pk`/`id` (the empty
object) is NOT omitted — `parsePostList` returns it as a post whose id is
the empty string, contradicting the claim that elements without a non-empty
id never appear in the result. -/
theorem claim4_counterexample :
    ((parsePostList (Json.obj [("threads", Json.arr [Json.obj []])]) "NOW").posts.map
      PostData.id) = [""] := by rfl

/-- Claim C4, amended: an element is dropped exactly when its unwrapped
value fails `parsePostData` entirely (it is `null` or a primitive); all
successfully parsed elements are kept in input order, including posts whose
id is empty — there is no non-empty-id requirement. -/
theorem claim4_amended (d : Json) (now : String) :
    (parsePostList d now).posts =
      (postListItems d).filterMap (fun i => parsePostData (unwrapListItem i) now) := by
  cases d <;> simp [parsePostList, postsLoop_eq_filterMap, postListItems, objectLike,
    Json.getField, Json.optField, Json.jsOr, Json.jsOrVal]

/-- Claim C5, counterexample: a payload carrying only `next_max_id` yields
no cursor at all, contradicting the claimed third fallback. -/
theorem claim5_counterexample :
    (parsePostList (Json.obj [("threads", Json.arr []),
      ("next_max_id", Json.str "abc")]) "NOW").nextCursor = none := by rfl

/-- Claim C5, amended: cursor precedence is a truthy `page_info.end_cursor`,
else a truthy top-level `next_cursor`, else no cursor; `next_max_id` and a
nested paging-tokens `downward` field are never consulted. -/
theorem claim5_amended (s t : String) (hs : s ≠ "") (ht : t ≠ "") :
    (parsePostList (Json.obj [("page_info", Json.obj [("end_cursor", Json.str s)]),
        ("next_cursor", Json.str t), ("next_max_id", Json.str "z")]) "NOW").nextCursor
      = some s ∧
    (parsePostList (Json.obj [("next_cursor", Json.str t),
        ("next_max_id", Json.str "z")]) "NOW").nextCursor = some t ∧
    (parsePostList (Json.obj [("next_max_id", Json.str t)]) "NOW").nextCursor = none ∧
    (parsePostList (Json.obj [("paging_tokens",
        Json.obj [("downward", Json.str t)])]) "NOW").nextCursor = none := by
  refine ⟨?_, ?_, rfl, rfl⟩ <;>
    simp [parsePostList, extractCursor, objectLike, Json.getField, Json.optField,
      Json.lookupField, Json.otruthy, Json.truthy, jsStringOr, Json.jsOrVal,
      Json.jsToString, Json.jsToStringFuel, Json.jsDepth, hs, ht]

/-- Witness for the amended claim C5 at concrete cursor strings. -/
theorem claim5_amended_witness :
    (parsePostList (Json.obj [("page_info", Json.obj [("end_cursor", Json.str "A")]),
        ("next_cursor", Json.str "B"), ("next_max_id", Json.str "z")]) "NOW").nextCursor
      = some "A" ∧
    (parsePostList (Json.obj [("next_cursor", Json.str "B"),
        ("next_max_id", Json.str "z")]) "NOW").nextCursor = some "B" ∧
    (parsePostList (Json.obj [("next_max_id", Json.str "B")]) "NOW").nextCursor = none ∧
    (parsePostList (Json.obj [("paging_tokens",
        Json.obj [("downward", Json.str "B")])]) "NOW").nextCursor = none :=
  claim5_amended "A" "B" (by decide) (by decide)

/-- On every call where `parseTimestamp` does not throw, the total renderer
used inside the normalizer returns the same string. -/
theorem parseTimestampTotal_agrees (v : Option Json) (now r : String)
    (h : parseTimestamp v now = some r) : parseTimestampTotal v now = r := by
  match v with
  | some (.num n) =>
    simp only [parseTimestamp, toISOString] at h
    split at h
    · simpa [parseTimestampTotal] using h
    · cases h
  | some (.str s) => simp_all [parseTimestamp, parseTimestampTotal]
  | some .null => simp_all [parseTimestamp, parseTimestampTotal]
  | some (.bool b) => simp_all [parseTimestamp, parseTimestampTotal]
  | some (.arr xs) => simp_all [parseTimestamp, parseTimestampTotal]
  | some (.obj fs) => simp_all [parseTimestamp, parseTimestampTotal]
  | none => simp_all [parseTimestamp, parseTimestampTotal]

/-- Claim C9, counterexample: `parseTimestamp` is not total — the numeric
input 8640000000001 puts the time value 8640000000001000 ms just past the
ECMAScript bound, so `new Date(value * 1000).toISOString()` throws a
`RangeError` instead of returning an ISO-8601 instant. -/
theorem claim9_counterexample :
    parseTimestamp (some (Json.num 8640000000001)) "NOW" = none ∧
    TIME_VALUE_MAX_MS < 8640000000001 * 1000 := by
  exact ⟨by decide, by decide⟩

/-- Claim C9, amended: a numeric value is interpreted as Unix seconds (not
milliseconds) and rendered through `new Date(value * 1000).toISOString()`,
which returns the ISO-8601 instant exactly while the time value stays
within the ±8.64e15 ms Date range (1700000000 renders as
`2023-11-14T22:13:20.000Z`) and throws a `RangeError` beyond it; a string
passes through unchanged; every other or missing value yields the current
instant `now`, so only the out-of-range numeric arm can throw. -/
theorem claim9_amended (now : String) :
    parseTimestamp (some (Json.num 1700000000)) now = some "2023-11-14T22:13:20.000Z" ∧
    (∀ n : Int, -TIME_VALUE_MAX_MS ≤ n * 1000 → n * 1000 ≤ TIME_VALUE_MAX_MS →
      parseTimestamp (some (Json.num n)) now = some (isoUtcString (n * 1000))) ∧
    (∀ n : Int, TIME_VALUE_MAX_MS < n * 1000 ∨ n * 1000 < -TIME_VALUE_MAX_MS →
      parseTimestamp (some (Json.num n)) now = none) ∧
    (∀ s : String, parseTimestamp (some (Json.str s)) now = some s) ∧
    parseTimestamp none now = some now ∧
    parseTimestamp (some Json.null) now = some now ∧
    (∀ b, parseTimestamp (some (Json.bool b)) now = some now) ∧
    (∀ xs, parseTimestamp (some (Json.arr xs)) now = some now) ∧
    (∀ fs, parseTimestamp (some (Json.obj fs)) now = some now) := by
  refine ⟨by rfl, ?_, ?_, fun s => rfl, rfl, rfl, fun b => rfl, fun xs => rfl,
    fun fs => rfl⟩
  · intro n h1 h2
    simp only [parseTimestamp, toISOString]
    rw [if_pos ⟨h1, h2⟩]
  · intro n h
    simp only [parseTimestamp, toISOString]
    rw [if_neg]
    rcases h with h | h
    · exact fun hc => absurd hc.2 (not_le.mpr h)
    · exact fun hc => absurd hc.1 (not_le.mpr h)

/-- Witness for the amended claim C9 at one in-range and one out-of-range
numeric timestamp. -/
theorem claim9_amended_witness :
    parseTimestamp (some (Json.num 1700000000)) "NOW" = some (isoUtcString 1700000000000) ∧
    parseTimestamp (some (Json.num 8640000000001)) "NOW" = none :=
  ⟨(claim9_amended "NOW").2.1 1700000000 (by decide) (by decide),
   (claim9_amended "NOW").2.2.1 8640000000001 (Or.inl (by decide))⟩

/-- Claim C10: the `ThreadsClient` constructor succeeds exactly when both
`sessionId` and `csrfToken` are present and non-empty (it throws on `null`
or `""`); a whitespace-only value such as a single space is accepted, even
though `normalizeValue` would reject it after trimming. -/
theorem claim10_constructor_guard (cookies : ThreadsCookies) (t : Option Int) :
    ((∃ st, threadsClientNew cookies t = Except.ok st) ↔
      ((∃ s, cookies.sessionId = some s ∧ s ≠ "") ∧
       (∃ c, cookies.csrfToken = some c ∧ c ≠ ""))) ∧
    (∃ st, threadsClientNew
      { sessionId := some " ", csrfToken := some " ", userId := none,
        cookieHeader := none, source := none } t = Except.ok st) ∧
    normalizeValue (some " ") = none := by
  refine ⟨?_, ⟨_, rfl⟩, by rfl⟩
  constructor
  · intro ⟨st, hst⟩
    unfold threadsClientNew at hst
    by_cases h : (truthyStr cookies.sessionId && truthyStr cookies.csrfToken) = true
    · simp only [Bool.and_eq_true] at h
      obtain ⟨h1, h2⟩ := h
      cases hs : cookies.sessionId with
      | none => rw [hs] at h1; simp [truthyStr] at h1
      | some s =>
        cases hc : cookies.csrfToken with
        | none => rw [hc] at h2; simp [truthyStr] at h2
        | some c =>
          rw [hs] at h1; rw [hc] at h2
          simp [truthyStr] at h1 h2
          exact ⟨⟨s, rfl, h1⟩, ⟨c, rfl, h2⟩⟩
    · rw [if_neg h] at hst; cases hst
  · intro ⟨⟨s, hs, hsne⟩, ⟨c, hc, hcne⟩⟩
    have hcond : (truthyStr cookies.sessionId && truthyStr cookies.csrfToken) = true := by
      simp [truthyStr, hs, hc, hsne, hcne]
    exact ⟨_, by unfold threadsClientNew; rw [if_pos hcond]⟩

/-- One JSON value never starts at a lower-than sign. -/
theorem pVal_lt_none (fuel : Nat) (rest : List Char) :
    pVal (fuel + 1) ('<' :: rest) = none := by
  simp [pVal, skipWs, isWsChar]

/-- A body that begins with an HTML doctype or tag fails `JSON.parse`. -/
theorem jsonParse_html_none (s : String) (h : beginsWithHtml s = true) :
    jsonParse s = none := by
  unfold beginsWithHtml at h
  split at h
  case _ heq =>
    unfold jsonParse
    rw [show s.length = s.data.length from rfl, heq]
    simp [pVal_lt_none]
  case _ heq =>
    unfold jsonParse
    rw [show s.length = s.data.length from rfl, heq]
    simp [pVal_lt_none]
  case _ => simp at h

/-- Claim C1, amended: the transport performs no HTML sniffing and has no
dedicated auth outcome — a response whose body begins with `<!DOCTYPE` or
`<html` is classified by status alone: a 2xx response surfaces the caught
`response.json()` syntax error, and a non-2xx response surfaces the
`HTTP <status>: <body prefix>` failure. -/
theorem claim1_amended (resp : HttpResponse) (h : beginsWithHtml resp.body = true) :
    graphqlClassify resp =
      (if resp.ok then GraphqlOutcome.jsonError
       else GraphqlOutcome.httpError resp.status (resp.body.take 200)) := by
  unfold graphqlClassify
  cases hok : resp.ok with
  | false => simp
  | true => simp [jsonParse_html_none resp.body h]

/-- Witness for the amended claim C1 at a concrete login-page response. -/
theorem claim1_amended_witness :
    graphqlClassify { ok := true, status := 200, body := htmlLoginBody }
      = GraphqlOutcome.jsonError :=
  claim1_amended { ok := true, status := 200, body := htmlLoginBody } (by decide)

set_option maxRecDepth 4000 in
/-- Claim C1, counterexample: one and the same HTML login-page body is
classified differently at status 200 and at status 403 — the classification
is not status-independent, and neither outcome is a dedicated auth error. -/
theorem claim1_counterexample :
    beginsWithHtml htmlLoginBody = true ∧
    graphqlClassify { ok := true, status := 200, body := htmlLoginBody } ≠
      graphqlClassify { ok := false, status := 403, body := htmlLoginBody } := by
  refine ⟨by decide, ?_⟩
  intro h
  rw [show graphqlClassify { ok := true, status := 200, body := htmlLoginBody } = GraphqlOutcome.jsonError from rfl] at h
  rw [show graphqlClassify { ok := false, status := 403, body := htmlLoginBody } = GraphqlOutcome.httpError 403 htmlLoginBody from rfl] at h
  exact GraphqlOutcome.noConfusion h

/-- A merge entry over a non-empty fallback is non-empty. -/
theorem truthyStr_mergeField (o : Option String) (fb : String) (h : (fb == "") = false) :
    truthyStr (some (mergeField o fb)) = true := by
  cases o with
  | none => simp [mergeField, truthyStr, h]
  | some v =>
    simp only [mergeField, truthyStr]
    split
    · simp [h]
    · simp_all

/-- The fallback merge binds all 11 keys to non-empty strings. -/
theorem mergeDocIds_fullyPopulated (e : PartialDocIds) :
    (mergeDocIds e).toPartial.fullyPopulated = true := by
  simp only [PartialDocIds.fullyPopulated, DocIds.toPartial, mergeDocIds]
  rw [truthyStr_mergeField, truthyStr_mergeField, truthyStr_mergeField,
    truthyStr_mergeField, truthyStr_mergeField, truthyStr_mergeField,
    truthyStr_mergeField, truthyStr_mergeField, truthyStr_mergeField,
    truthyStr_mergeField, truthyStr_mergeField] <;> decide

/-- Claim C2, counterexample: a fresh on-disk cache record whose doc-id map
is empty is returned unchanged and unvalidated by `getDocIds` — the returned
map binds none of the 11 logical query names, contradicting the claim that
the returned map is always fully populated for any cache contents. -/
theorem claim2_counterexample :
    (getDocIds false (some { docIds := {}, timestamp := 0, lsdToken := none })
        3600000 { docIds := {}, lsdToken := none }).docIds.userByUsername = none ∧
    (getDocIds false (some { docIds := {}, timestamp := 0, lsdToken := none })
        3600000 { docIds := {}, lsdToken := none }).docIds.fullyPopulated = false := by
  exact ⟨rfl, rfl⟩

/-- Claim C2, amended: whenever `getDocIds` actually runs discovery (forced
refresh, missing record, or stale record), the returned map binds every one
of the 11 logical query names to a non-empty string thanks to the fallback
merge, for every discovery outcome; only the fresh-cache path returns the
on-disk record as-is and can surface a partial map. -/
theorem claim2_amended (file : Option CachedDocIds) (now : Int) (e : Extraction) :
    (getDocIds true file now e).docIds.fullyPopulated = true ∧
    (getDocIds false none now e).docIds.fullyPopulated = true ∧
    (∀ c : CachedDocIds, CACHE_MAX_AGE_MS ≤ now - c.timestamp →
      (getDocIds false (some c) now e).docIds.fullyPopulated = true) := by
  refine ⟨?_, ?_, ?_⟩
  · simp [getDocIds, mergeDocIds_fullyPopulated]
  · simp [getDocIds, loadCachedDocIds, mergeDocIds_fullyPopulated]
  · intro c hstale
    have h2 : ¬ (now - c.timestamp < CACHE_MAX_AGE_MS) := not_lt.mpr hstale
    simp [getDocIds, loadCachedDocIds, h2, mergeDocIds_fullyPopulated]

/-- Witness for the amended claim C2 at a concrete stale cache record. -/
theorem claim2_amended_witness :
    (getDocIds true (some { docIds := {}, timestamp := 0, lsdToken := none })
        90000000 { docIds := {}, lsdToken := none }).docIds.fullyPopulated = true ∧
    (getDocIds false (some { docIds := {}, timestamp := 0, lsdToken := none })
        90000000 { docIds := {}, lsdToken := none }).docIds.fullyPopulated = true :=
  ⟨(claim2_amended (some { docIds := {}, timestamp := 0, lsdToken := none })
      90000000 { docIds := {}, lsdToken := none }).1,
   (claim2_amended (some { docIds := {}, timestamp := 0, lsdToken := none })
      90000000 { docIds := {}, lsdToken := none }).2.2
      { docIds := {}, timestamp := 0, lsdToken := none } (by decide)⟩

/-- Claim C8: without `forceRefresh`, a cached record younger than 24 hours
is returned unchanged with no discovery attempt (the result does not mention
the discovery outcome), and a record aged 24 hours or more is ignored —
`getDocIds` behaves as if refreshing and returns the merged discovery
result. -/
theorem claim8_cache_freshness (c : CachedDocIds) (now : Int) (e : Extraction) :
    (now - c.timestamp < CACHE_MAX_AGE_MS →
      getDocIds false (some c) now e = { docIds := c.docIds, lsdToken := c.lsdToken }) ∧
    (CACHE_MAX_AGE_MS ≤ now - c.timestamp →
      getDocIds false (some c) now e = getDocIds true (some c) now e ∧
      getDocIds false (some c) now e =
        { docIds := (mergeDocIds e.docIds).toPartial, lsdToken := e.lsdToken }) := by
  constructor
  · intro hfresh
    simp [getDocIds, loadCachedDocIds, hfresh]
  · intro hstale
    have h2 : ¬ (now - c.timestamp < CACHE_MAX_AGE_MS) := not_lt.mpr hstale
    simp [getDocIds, loadCachedDocIds, h2]

/-- Witness for claim C8: a record timestamped one hour ago is returned
unchanged, one timestamped 25 hours ago triggers the refresh path. -/
theorem claim8_cache_freshness_witness :
    getDocIds false (some { docIds := {}, timestamp := 0, lsdToken := none })
        3600000 { docIds := {}, lsdToken := none }
      = { docIds := ({} : PartialDocIds), lsdToken := none } ∧
    getDocIds false (some { docIds := {}, timestamp := 0, lsdToken := none })
        90000000 { docIds := {}, lsdToken := none }
      = getDocIds true (some { docIds := {}, timestamp := 0, lsdToken := none })
          90000000 { docIds := {}, lsdToken := none } :=
  ⟨(claim8_cache_freshness { docIds := {}, timestamp := 0, lsdToken := none }
      3600000 { docIds := {}, lsdToken := none }).1 (by decide),
   ((claim8_cache_freshness { docIds := {}, timestamp := 0, lsdToken := none }
      90000000 { docIds := {}, lsdToken := none }).2 (by decide)).1⟩

/-- Unfolding of the walk loop body on a failed page fetch. -/
theorem walkGo_err {α : Type} (fetch : Nat → Option String → FetchOutcome α)
    (maxPages fuel k : Nat) (acc : List α) (cursor : Option String) (e : String)
    (h : fetch k cursor = FetchOutcome.err e) :
    walkGo fetch maxPages fuel k acc cursor =
      { items := acc, errorMsg := some e, fatal := acc.isEmpty } := by
  rw [walkGo, h]

/-- Unfolding of the walk loop body on a successful page fetch. -/
theorem walkGo_ok {α : Type} (fetch : Nat → Option String → FetchOutcome α)
    (maxPages fuel k : Nat) (acc : List α) (cursor : Option String)
    (ps : List α) (next : Option String)
    (h : fetch k cursor = FetchOutcome.ok ps next) :
    walkGo fetch maxPages fuel k acc cursor =
      if truthyStr next && decide (k + 1 < maxPages) then
        (match fuel with
         | f + 1 => walkGo fetch maxPages f (k + 1) (acc ++ ps) next
         | 0 => { items := acc ++ ps, errorMsg := none, fatal := false })
      else { items := acc ++ ps, errorMsg := none, fatal := false } := by
  rw [walkGo, h]

/-- The walk exits fatally exactly when a page failed with nothing
accumulated. -/
theorem walkGo_fatal_iff {α : Type} (fetch : Nat → Option String → FetchOutcome α)
    (maxPages : Nat) (fuel k : Nat) (acc : List α) (cursor : Option String) :
    ((walkGo fetch maxPages fuel k acc cursor).fatal = true) ↔
      ((walkGo fetch maxPages fuel k acc cursor).items = [] ∧
       (walkGo fetch maxPages fuel k acc cursor).errorMsg ≠ none) := by
  induction fuel generalizing k acc cursor with
  | zero =>
    cases hf : fetch k cursor with
    | err e => rw [walkGo_err fetch maxPages 0 k acc cursor e hf]; simp [List.isEmpty_iff]
    | ok ps next =>
      rw [walkGo_ok fetch maxPages 0 k acc cursor ps next hf]
      split <;> simp
  | succ f ih =>
    cases hf : fetch k cursor with
    | err e =>
      rw [walkGo_err fetch maxPages (f + 1) k acc cursor e hf]
      simp [List.isEmpty_iff]
    | ok ps next =>
      rw [walkGo_ok fetch maxPages (f + 1) k acc cursor ps next hf]
      split
      · exact ih (k + 1) (acc ++ ps) next
      · simp

/-- Items already accumulated are never discarded by the rest of the walk. -/
theorem walkGo_keeps_acc {α : Type} (fetch : Nat → Option String → FetchOutcome α)
    (maxPages : Nat) (fuel k : Nat) (acc : List α) (cursor : Option String) :
    acc <+: (walkGo fetch maxPages fuel k acc cursor).items := by
  induction fuel generalizing k acc cursor with
  | zero =>
    cases hf : fetch k cursor with
    | err e => rw [walkGo_err fetch maxPages 0 k acc cursor e hf]
    | ok ps next =>
      rw [walkGo_ok fetch maxPages 0 k acc cursor ps next hf]
      split <;> simp
  | succ f ih =>
    cases hf : fetch k cursor with
    | err e => rw [walkGo_err fetch maxPages (f + 1) k acc cursor e hf]
    | ok ps next =>
      rw [walkGo_ok fetch maxPages (f + 1) k acc cursor ps next hf]
      split
      · exact List.IsPrefix.trans (List.prefix_append acc ps) (ih (k + 1) (acc ++ ps) next)
      · simp

/-- Claim C7: in the pagination walk, once the first fetch succeeds with at
least one item no later failure is fatal (the accumulated items are
surfaced together with the failure message); a failure on the very first
fetch is the sole outcome — empty items, the error, and a fatal exit.  In
general the walk exits fatally exactly when a fetch failed with zero items
accumulated, and a concrete two-page trace returns page one's items plus
the second page's error non-fatally. -/
theorem claim7_pagination_walk {α : Type} (fetch : Nat → Option String → FetchOutcome α)
    (maxPages : Nat) (c0 : Option String) :
    (∀ ps cur, fetch 0 c0 = FetchOutcome.ok ps cur → ps ≠ [] →
      (walkPages fetch maxPages c0).fatal = false) ∧
    (∀ e, fetch 0 c0 = FetchOutcome.err e →
      walkPages fetch maxPages c0 = { items := [], errorMsg := some e, fatal := true }) ∧
    (((walkPages fetch maxPages c0).fatal = true) ↔
      ((walkPages fetch maxPages c0).items = [] ∧
       (walkPages fetch maxPages c0).errorMsg ≠ none)) ∧
    walkPages (fun k _ => if k = 0 then FetchOutcome.ok [1, 2] (some "c1")
        else FetchOutcome.err "boom") 5 none
      = { items := [1, 2], errorMsg := some "boom", fatal := false } := by
  refine ⟨?_, ?_, walkGo_fatal_iff fetch maxPages maxPages 0 [] c0, by rfl⟩
  · intro ps cur hfetch hne
    cases hfatal : (walkPages fetch maxPages c0).fatal with
    | false => rfl
    | true =>
      exfalso
      obtain ⟨hitems, -⟩ := (walkGo_fatal_iff fetch maxPages maxPages 0 [] c0).mp hfatal
      have hpre : ps <+: (walkGo fetch maxPages maxPages 0 [] c0).items := by
        rw [walkGo_ok fetch maxPages maxPages 0 [] c0 ps cur hfetch]
        split
        · cases maxPages with
          | zero => simp
          | succ f => simpa using walkGo_keeps_acc fetch (f + 1) f 1 ([] ++ ps) cur
        · simp
      rw [hitems] at hpre
      exact hne (List.prefix_nil.mp hpre)
  · intro e hfetch
    unfold walkPages
    rw [walkGo_err fetch maxPages maxPages 0 [] c0 e hfetch]
    simp

/-- Witness for claim C7 at two concrete fetch traces. -/
theorem claim7_pagination_walk_witness :
    (walkPages (fun k _ => if k = 0 then FetchOutcome.ok [1, 2] (some "c1")
        else FetchOutcome.err "boom") 5 none).fatal = false ∧
    walkPages (fun (_ : Nat) (_ : Option String) => (FetchOutcome.err "down" : FetchOutcome Nat)) 5 none
      = { items := [], errorMsg := some "down", fatal := true } :=
  ⟨(claim7_pagination_walk (fun k _ => if k = 0 then FetchOutcome.ok [1, 2] (some "c1")
      else FetchOutcome.err "boom") 5 none).1 [1, 2] (some "c1") (by rfl) (by decide),
   (claim7_pagination_walk (fun _ _ => FetchOutcome.err "down") 5 none).2.1 "down" (by rfl)⟩

/-- Closed form of `resolveCredentials` when both required credentials come
from the CLI: browser extraction is never consulted, the source label is
`CLI argument`, no warnings are produced — but the user-id environment
aliases are still read when no CLI user id is given. -/
theorem resolveCredentials_cli_both (s c : String) (hs : (s == "") = false)
    (hc : (c == "") = false) (ou : Option String) (osrc : Option (List CookieSource))
    (env : String → Option String) (b : CookieSource → CookieExtraction) :
    resolveCredentials { sessionId := some s, csrfToken := some c, userId := ou, cookieSource := osrc } env b =
      ({ cliBothCookies s c (cliBothUserId ou env) with
          cookieHeader := some (headerOf (cliBothCookies s c (cliBothUserId ou env))) }, []) := by
  have hts : truthyStr (some s) = true := by simp [truthyStr, hs]
  have htc : truthyStr (some c) = true := by simp [truthyStr, hc]
  have hcli : truthyStr (some "CLI argument") = true := by decide
  have htn : truthyStr none = false := rfl
  by_cases hou : truthyStr ou = true
  · simp [resolveCredentials, buildEmpty, readEnvCookie, getCookieField, setCookieField,
      orCliLabel, hts, htc, hcli, htn, hou, cliBothCookies, cliBothUserId]
  · simp only [Bool.not_eq_true] at hou
    cases hm : firstEnvMatch env ["THREADS_USER_ID", "INSTAGRAM_USER_ID", "DS_USER_ID"] with
    | none =>
      simp [resolveCredentials, buildEmpty, readEnvCookie, getCookieField, setCookieField,
        orCliLabel, hts, htc, hcli, htn, hou, hm, cliBothCookies, cliBothUserId]
    | some kv =>
      simp [resolveCredentials, buildEmpty, readEnvCookie, getCookieField, setCookieField,
        orCliLabel, hts, htc, hcli, htn, hou, hm, cliBothCookies, cliBothUserId]

/-- Claim C6, amended: with both `sessionId` and `csrfToken` supplied on the
CLI, the browser capability is never invoked (the result is independent of
it), the returned required credentials and the `CLI argument` source label
are fixed, and no warnings are emitted; but the environment is still
consulted for the user id, so full environment-independence holds only when
a CLI user id is also supplied. -/
theorem claim6_amended (s c : String) (opts : ResolveOpts)
    (env env2 : String → Option String) (b b2 : CookieSource → CookieExtraction)
    (hs : opts.sessionId = some s) (hsne : s ≠ "")
    (hc : opts.csrfToken = some c) (hcne : c ≠ "") :
    resolveCredentials opts env b = resolveCredentials opts env b2 ∧
    (resolveCredentials opts env b).1.sessionId = some s ∧
    (resolveCredentials opts env b).1.csrfToken = some c ∧
    (resolveCredentials opts env b).1.source = some "CLI argument" ∧
    (resolveCredentials opts env b).2 = [] ∧
    (∀ u, opts.userId = some u → u ≠ "" →
      resolveCredentials opts env b = resolveCredentials opts env2 b) := by
  have hs0 : (s == "") = false := beq_eq_false_iff_ne.mpr hsne
  have hc0 : (c == "") = false := beq_eq_false_iff_ne.mpr hcne
  obtain ⟨os, oc, ou, osrc⟩ := opts
  simp only at hs hc
  subst hs; subst hc
  rw [resolveCredentials_cli_both s c hs0 hc0 ou osrc env b,
    resolveCredentials_cli_both s c hs0 hc0 ou osrc env b2]
  refine ⟨rfl, rfl, rfl, rfl, rfl, ?_⟩
  intro u hu hune
  simp only at hu
  subst hu
  rw [resolveCredentials_cli_both s c hs0 hc0 (some u) osrc env2 b]
  have : truthyStr (some u) = true := by simp [truthyStr, hune]
  simp [cliBothUserId, this]

/-- Claim C6, counterexample: two runs with identical CLI credentials
(`sessionId` and `csrfToken` both given, no CLI user id) that differ only in
the environment return different credentials — the run whose environment
carries `THREADS_USER_ID` picks up the user id `42`, so an environment
lookup does happen despite both CLI values being present. -/
theorem claim6_counterexample :
    (resolveCredentials cliOnlyOpts envWithUserId browserNothing).1.userId = some "42" ∧
    (resolveCredentials cliOnlyOpts envEmpty browserNothing).1.userId = none ∧
    resolveCredentials cliOnlyOpts envWithUserId browserNothing ≠
      resolveCredentials cliOnlyOpts envEmpty browserNothing := by
  refine ⟨by decide, by decide, by decide⟩

/-- Witness for the amended claim C6 at concrete options and environments. -/
theorem claim6_amended_witness :
    (resolveCredentials { sessionId := some "sess", csrfToken := some "csrf", userId := some "7", cookieSource := none } envWithUserId browserNothing).1.source = some "CLI argument" ∧
    resolveCredentials { sessionId := some "sess", csrfToken := some "csrf", userId := some "7", cookieSource := none } envWithUserId browserNothing =
      resolveCredentials { sessionId := some "sess", csrfToken := some "csrf", userId := some "7", cookieSource := none } envEmpty browserNothing :=
  ⟨(claim6_amended "sess" "csrf" _ envWithUserId envEmpty browserNothing browserNothing
      rfl (by decide) rfl (by decide)).2.2.2.1,
   (claim6_amended "sess" "csrf" _ envWithUserId envEmpty browserNothing browserNothing
      rfl (by decide) rfl (by decide)).2.2.2.2.2 "7" rfl (by decide)⟩
